import Mathlib

/-!
Verification of the swipe-to-delete gesture logic of the task-app
repository (swipe module, configuration constants, and the UI delete
path).

Coordinates and times are modelled as integers. The JS expressions
`Config.SWIPE_THRESHOLD * 0.6` and `-Config.SWIPE_THRESHOLD * 0.6`
evaluate exactly to `60` and `-60` in IEEE-754 double arithmetic
(the rounding error of the double nearest to 0.6, scaled by 100, is
below half an ulp at 60), so the integer embedding of the threshold
comparisons is exact.
-/

namespace Config

/-- `Config.SWIPE_THRESHOLD` from src/js/config.js: pixels to swipe before delete. -/
def SWIPE_THRESHOLD : Int := 100

/-- `Config.SWIPE_TIME_LIMIT` from src/js/config.js: max time for swipe gesture (ms). -/
def SWIPE_TIME_LIMIT : Int := 1000

end Config

/-- The per-row gesture state `row._swipeData` created by `Swipe.handleStart`:
start coordinates, current X, start time, and whether the gesture is a
mouse drag.  The touch-only revision (src/unnamed/part_001) stores the same
record without the `isMouseDown` flag; for that revision the flag is set to
`false` and never read. -/
structure SwipeData where
  startX : Int
  startY : Int
  currentX : Int
  startTime : Int
  isMouseDown : Bool
deriving DecidableEq, Repr

/-- The row's CSS transform as set by the swipe module: rest (`''`),
`translateX(-d px)` from a move, or `translateX(-100%)` from the delete
animation. -/
inductive Transform where
  | rest
  | translatePx (d : Int)
  | offscreen
deriving DecidableEq, Repr

/-- Observable state of one table row, as far as the swipe module touches it:
the attached gesture state and the visual markers (CSS classes, transform,
opacity). `deleteIndicator` and `rowSwipeable` are used only by the
touch-only revision. -/
structure RowState where
  swipeData : Option SwipeData
  swiping : Bool
  swipeDelete : Bool
  transform : Transform
  opacity0 : Bool
  deleteIndicator : Bool
  rowSwipeable : Bool
deriving DecidableEq, Repr

/-- A pointer/touch move event: client coordinates, whether it is a
`mousemove`, and the `buttons` bitmask. -/
structure MoveEvent where
  clientX : Int
  clientY : Int
  isMouseMove : Bool
  buttons : Int
deriving DecidableEq, Repr

/-- Outcome of `Swipe.handleEnd`: no active state (guard hit), delete
dispatched (`performDelete` invoked), or row reset. -/
inductive EndOutcome where
  | noOp
  | deleteDispatched
  | reset
deriving DecidableEq, Repr

namespace Swipe

/-- `Swipe.handleStart` (src/unnamed/part_000, lines 77-94): attaches fresh
`_swipeData` to the row (overwriting any existing one) and adds the
`swiping` class.  Modelled for a valid `.swipe-row` target. -/
def handleStart (r : RowState) (clientX clientY now : Int) (isTouch : Bool) :
    RowState :=
  { r with
    swipeData := some
      { startX := clientX, startY := clientY, currentX := clientX,
        startTime := now, isMouseDown := !isTouch },
    swiping := true }

/-- `Swipe.handleMove` (src/unnamed/part_000, lines 100-134).  Returns the
updated row state and whether `e.preventDefault()` was called.  Guards: no
active state; mouse drag with button released; vertical move
(`|deltaY| > |deltaX|`).  Past the guards: default scroll suppressed,
`currentX` updated, and for leftward motion the transform and the
`swipe-delete` class are set from `min(|deltaX|, SWIPE_THRESHOLD)`. -/
def handleMove (r : RowState) (e : MoveEvent) : RowState × Bool :=
  match r.swipeData with
  | none => (r, false)
  | some sd =>
    if sd.isMouseDown ∧ e.isMouseMove ∧ e.buttons ≠ 1 then (r, false)
    else
      let deltaX := e.clientX - sd.startX
      let deltaY := e.clientY - sd.startY
      if |deltaY| > |deltaX| then (r, false)
      else
        let r1 := { r with swipeData := some { sd with currentX := e.clientX } }
        if deltaX < 0 then
          let swipeDistance := min |deltaX| Config.SWIPE_THRESHOLD
          let r2 := { r1 with transform := Transform.translatePx swipeDistance }
          if swipeDistance > Config.SWIPE_THRESHOLD * 6 / 10 then
            ({ r2 with swipeDelete := true }, true)
          else
            ({ r2 with swipeDelete := false }, true)
        else (r1, true)

/-- The delete classification of `Swipe.handleEnd` (src/unnamed/part_000,
lines 151-154): `deltaX < -SWIPE_THRESHOLD * 0.6 && swipeDistance >
SWIPE_THRESHOLD * 0.6 && swipeTime < SWIPE_TIME_LIMIT`, with
`SWIPE_THRESHOLD * 0.6 = 60` exact in doubles. -/
def shouldDelete (sd : SwipeData) (now : Int) : Bool :=
  let deltaX := sd.currentX - sd.startX
  let swipeDistance := |deltaX|
  let swipeTime := now - sd.startTime
  decide (deltaX < -Config.SWIPE_THRESHOLD * 6 / 10) &&
    decide (swipeDistance > Config.SWIPE_THRESHOLD * 6 / 10) &&
    decide (swipeTime < Config.SWIPE_TIME_LIMIT)

/-- `Swipe.handleEnd` (src/unnamed/part_000, lines 141-166): guard on a
missing `_swipeData`; otherwise remove `swiping`, classify, and either call
`performDelete` (whose synchronous part slides the row offscreen and fades
it) or reset transform and `swipe-delete`; `_swipeData` is deleted in both
branches. -/
def handleEnd (r : RowState) (now : Int) : RowState × EndOutcome :=
  match r.swipeData with
  | none => (r, EndOutcome.noOp)
  | some sd =>
    let r1 := { r with swiping := false }
    if shouldDelete sd now then
      ({ r1 with transform := Transform.offscreen, opacity0 := true,
                 swipeData := none },
       EndOutcome.deleteDispatched)
    else
      ({ r1 with transform := Transform.rest, swipeDelete := false,
                 swipeData := none },
       EndOutcome.reset)

/-- Folds `handleMove` over a list of move events (the moves of one gesture
between pointer-down and pointer-up). -/
def processMoves (r : RowState) (ms : List MoveEvent) : RowState :=
  ms.foldl (fun s e => (handleMove s e).1) r

/-- A move event passes both guards of `handleMove` relative to gesture
state `sd`: it is not a released-button mousemove and it is not vertical.
Depends only on the fields of `sd` that `handleMove` never changes. -/
def isHorizontalMove (sd : SwipeData) (e : MoveEvent) : Bool :=
  !(sd.isMouseDown && e.isMouseMove && decide (e.buttons ≠ 1)) &&
    decide (|e.clientY - sd.startY| ≤ |e.clientX - sd.startX|)

end Swipe

namespace SwipeTouchOnly

/-- `Swipe.handleTouchMove` of the touch-only revision
(src/unnamed/part_001, lines 65-94): same vertical guard, no mouse guard;
past the guard it suppresses scroll, updates `currentX`, adds `swiping`,
and for leftward motion sets the transform from `min(|deltaX|, 100)` and
the `swipe-delete` class from the flat `> 50` threshold. -/
def handleTouchMove (r : RowState) (clientX clientY : Int) : RowState × Bool :=
  match r.swipeData with
  | none => (r, false)
  | some sd =>
    let deltaX := clientX - sd.startX
    let deltaY := clientY - sd.startY
    if |deltaY| > |deltaX| then (r, false)
    else
      let r1 := { r with swipeData := some { sd with currentX := clientX },
                         swiping := true }
      if deltaX < 0 then
        let swipeDistance := min |deltaX| 100
        let r2 := { r1 with transform := Transform.translatePx swipeDistance }
        if swipeDistance > 50 then
          ({ r2 with swipeDelete := true }, true)
        else
          ({ r2 with swipeDelete := false }, true)
      else (r1, true)

/-- The delete classification of `Swipe.handleTouchEnd` of the touch-only
revision (src/unnamed/part_001, line 112):
`deltaX < -50 && swipeDistance > 50 && swipeTime < 1000`. -/
def shouldDelete (sd : SwipeData) (now : Int) : Bool :=
  let deltaX := sd.currentX - sd.startX
  let swipeDistance := |deltaX|
  let swipeTime := now - sd.startTime
  decide (deltaX < -50) && decide (swipeDistance > 50) &&
    decide (swipeTime < 1000)

/-- `Swipe.handleTouchEnd` (src/unnamed/part_001, lines 101-126): classify
with the flat 50px thresholds; on delete, `performDelete` slides the row
offscreen; otherwise transform, `swipe-delete` and the delete indicator are
reset; `table-row-swipeable` and `_swipeData` are cleared in both branches. -/
def handleTouchEnd (r : RowState) (now : Int) : RowState × EndOutcome :=
  match r.swipeData with
  | none => (r, EndOutcome.noOp)
  | some sd =>
    let r1 := { r with swiping := false }
    if shouldDelete sd now then
      ({ r1 with transform := Transform.offscreen, opacity0 := true,
                 rowSwipeable := false, swipeData := none },
       EndOutcome.deleteDispatched)
    else
      ({ r1 with transform := Transform.rest, swipeDelete := false,
                 deleteIndicator := false, rowSwipeable := false,
                 swipeData := none },
       EndOutcome.reset)

end SwipeTouchOnly

/-- Result of the awaited storage delete call inside `UI.deleteEntry`. -/
inductive StorageResult where
  | ok
  | err
deriving DecidableEq, Repr

/-- Observable effects of one run of `UI.deleteEntry`: whether the list was
re-rendered (`Finance.loadEntries` / `Media.loadEntries` called), and which
toast was shown. -/
structure DeleteEffects where
  reRendered : Bool
  successShown : Bool
  errorShown : Bool
deriving DecidableEq, Repr

namespace UI

/-- `UI.deleteEntry` (src/js/ui.js, lines 509-529), indexed by the outcome
of the awaited storage delete: on success, `loadEntries` re-renders the list
and a success toast is shown; if the storage call throws, control jumps to
the `catch` before `loadEntries` runs, so only the error toast is shown
(the `finally` only clears the loading overlay). -/
def deleteEntry (storage : StorageResult) : DeleteEffects :=
  match storage with
  | StorageResult.ok =>
    { reRendered := true, successShown := true, errorShown := false }
  | StorageResult.err =>
    { reRendered := false, successShown := false, errorShown := true }

end UI



/-- A row in its rest visual state carrying the given attached gesture
state; used to build concrete gesture scenarios. -/
def restRow (sd : Option SwipeData) : RowState :=
  { swipeData := sd, swiping := true, swipeDelete := false,
    transform := Transform.rest, opacity0 := false,
    deleteIndicator := false, rowSwipeable := false }

section Lemmas

/-- On a row with active gesture state, a move event failing the guards of
`Swipe.handleMove` (released-button mousemove, or vertical) leaves the row
untouched and does not call `preventDefault`. -/
theorem handleMove_not_horizontal (r : RowState) (sd : SwipeData)
    (e : MoveEvent) (h : r.swipeData = some sd)
    (hh : Swipe.isHorizontalMove sd e = false) :
    Swipe.handleMove r e = (r, false) := by
  have hcases : (sd.isMouseDown ∧ e.isMouseMove ∧ e.buttons ≠ 1) ∨
      |e.clientX - sd.startX| < |e.clientY - sd.startY| := by
    unfold Swipe.isHorizontalMove at hh
    rcases Bool.and_eq_false_iff.mp hh with hg | hd
    · rw [Bool.not_eq_false'] at hg
      simp only [Bool.and_eq_true, decide_eq_true_eq] at hg
      exact Or.inl ⟨hg.1.1, hg.1.2, hg.2⟩
    · exact Or.inr (not_le.mp (of_decide_eq_false hd))
  simp only [Swipe.handleMove, h]
  split_ifs with hg hv hx ht
  · rfl
  · rfl
  all_goals
    exfalso
    rcases hcases with hgg | hvv
    · exact hg hgg
    · exact hv hvv

/-- On a row with active gesture state, a move event passing both guards of
`Swipe.handleMove` updates `currentX` to the event's X and changes no other
gesture-state field. -/
theorem handleMove_horizontal_swipeData (r : RowState) (sd : SwipeData)
    (e : MoveEvent) (h : r.swipeData = some sd)
    (hh : Swipe.isHorizontalMove sd e = true) :
    ((Swipe.handleMove r e).1).swipeData =
      some { sd with currentX := e.clientX } := by
  unfold Swipe.isHorizontalMove at hh
  rw [Bool.and_eq_true] at hh
  obtain ⟨hg', hd⟩ := hh
  have hhor : |e.clientY - sd.startY| ≤ |e.clientX - sd.startX| :=
    of_decide_eq_true hd
  rw [Bool.not_eq_true'] at hg'
  have hguard : ¬(sd.isMouseDown ∧ e.isMouseMove ∧ e.buttons ≠ 1) := by
    intro ⟨h1, h2, h3⟩
    rw [h1, h2] at hg'
    simp only [Bool.true_and, decide_eq_false_iff_not, not_not] at hg'
    exact h3 hg'
  simp only [Swipe.handleMove, h]
  split_ifs with hv hx ht
  · exact absurd hv (not_lt.mpr hhor)
  · rfl
  · rfl
  · rfl

end Lemmas

/-- The delete classification of src/unnamed/part_000 spelled out at the
observed configuration values: `deltaX < -60`, `|deltaX| > 60`,
`elapsed < 1000`. -/
theorem shouldDelete_iff (sd : SwipeData) (now : Int) :
    Swipe.shouldDelete sd now = true ↔
      sd.currentX - sd.startX < -60 ∧ 60 < |sd.currentX - sd.startX| ∧
        now - sd.startTime < 1000 := by
  simp only [Swipe.shouldDelete, Config.SWIPE_THRESHOLD,
    Config.SWIPE_TIME_LIMIT, Bool.and_eq_true, decide_eq_true_eq]
  norm_num
  tauto

/-- C1: on a row with an active gesture state, the pointer-up handler
`Swipe.handleEnd` classifies the gesture as a delete iff the final deltaX
(current X minus start X) is strictly below `-0.6 * THRESHOLD = -60`, the
distance `|deltaX|` strictly exceeds `0.6 * THRESHOLD = 60`, and the
elapsed time is strictly below `TIME_LIMIT = 1000` ms. -/
theorem handleEnd_classifies_delete_iff (r : RowState) (sd : SwipeData)
    (now : Int) (h : r.swipeData = some sd) :
    (Swipe.handleEnd r now).2 = EndOutcome.deleteDispatched ↔
      sd.currentX - sd.startX < -60 ∧ 60 < |sd.currentX - sd.startX| ∧
        now - sd.startTime < 1000 := by
  rw [← shouldDelete_iff]
  simp only [Swipe.handleEnd, h]
  split_ifs with hd
  · simp [hd]
  · simp [hd]

/-- Witness for C1: the spec's first scenario, pointer-down at x = 200,
final x = 90, released at 350 ms: deltaX = -110, classified delete. -/
theorem handleEnd_classifies_delete_iff_witness :
    (Swipe.handleEnd (restRow (some ⟨200, 100, 90, 0, false⟩)) 350).2 =
      EndOutcome.deleteDispatched :=
  (handleEnd_classifies_delete_iff (restRow (some ⟨200, 100, 90, 0, false⟩))
    ⟨200, 100, 90, 0, false⟩ 350 rfl).mpr (by decide)

/-- C2 fails at its stated boundary: a gesture with final deltaX exactly
-60 (distance exactly 60) and elapsed 500 ms satisfies `deltaX ≤ -60`,
`distance ≥ 60`, `elapsed < 1000`, yet `Swipe.handleEnd` resets the row
instead of classifying a delete, because the code's comparisons are
strict. -/
theorem handleEnd_boundary_not_delete :
    ((140 : Int) - 200 ≤ -60 ∧ (60 : Int) ≤ |(140 : Int) - 200| ∧
        (500 : Int) - 0 < 1000) ∧
      (Swipe.handleEnd (restRow (some ⟨200, 100, 140, 0, false⟩)) 500).2 =
        EndOutcome.reset := by
  decide

/-- C2 (amended): for every gesture whose final deltaX is strictly less
than -60 and whose distance strictly exceeds 60 (given THRESHOLD = 100),
with elapsed time strictly under 1000 ms, the pointer-up handler classifies
a delete; the boundary cases deltaX = -60 and distance = 60 exactly are
excluded. -/
theorem handleEnd_strict_thresholds_delete (r : RowState) (sd : SwipeData)
    (now : Int) (h : r.swipeData = some sd)
    (h1 : sd.currentX - sd.startX < -60)
    (h2 : 60 < |sd.currentX - sd.startX|)
    (h3 : now - sd.startTime < 1000) :
    (Swipe.handleEnd r now).2 = EndOutcome.deleteDispatched := by
  have hd := (shouldDelete_iff sd now).mpr ⟨h1, h2, h3⟩
  simp [Swipe.handleEnd, h, hd]

/-- Witness for the amended C2: deltaX = -61, distance 61, elapsed 999 ms
is classified delete. -/
theorem handleEnd_strict_thresholds_delete_witness :
    (Swipe.handleEnd (restRow (some ⟨200, 100, 139, 0, false⟩)) 999).2 =
      EndOutcome.deleteDispatched :=
  handleEnd_strict_thresholds_delete
    (restRow (some ⟨200, 100, 139, 0, false⟩)) ⟨200, 100, 139, 0, false⟩
    999 rfl (by decide) (by decide) (by decide)

/-- C3: `UI.deleteEntry` evaluated at a failing storage delete: the
user-visible error is shown, but the list re-render (`loadEntries`) is
skipped, because the re-render statement sits inside the `try` after the
`await` that threw — the code does not re-render from authoritative
storage state on failure as the spec requires. -/
theorem deleteEntry_failed_storage_effects :
    (UI.deleteEntry StorageResult.err).errorShown = true ∧
      (UI.deleteEntry StorageResult.err).reRendered = false ∧
      (UI.deleteEntry StorageResult.ok).reRendered = true := by
  decide

/-- C4: no gesture whose elapsed time reaches 1000 ms is ever classified
as a delete, whatever the distance travelled. -/
theorem handleEnd_time_limit_never_delete (r : RowState) (sd : SwipeData)
    (now : Int) (h : r.swipeData = some sd)
    (ht : 1000 ≤ now - sd.startTime) :
    (Swipe.handleEnd r now).2 ≠ EndOutcome.deleteDispatched := by
  have hd : Swipe.shouldDelete sd now = false := by
    rw [Bool.eq_false_iff]
    intro hc
    exact absurd ((shouldDelete_iff sd now).mp hc).2.2 (not_lt.mpr ht)
  simp [Swipe.handleEnd, h, hd]

/-- Witness for C4: the spec's third scenario, distance 120 but released
at 1200 ms: not classified delete. -/
theorem handleEnd_time_limit_never_delete_witness :
    (Swipe.handleEnd (restRow (some ⟨200, 100, 80, 0, false⟩)) 1200).2 ≠
      EndOutcome.deleteDispatched :=
  handleEnd_time_limit_never_delete
    (restRow (some ⟨200, 100, 80, 0, false⟩)) ⟨200, 100, 80, 0, false⟩
    1200 rfl (by decide)

/-- C5: a pointer-move with `|deltaY| > |deltaX|` relative to the gesture
start is ignored by the move handler of both revisions: the row state is
untouched (no horizontal offset) and `preventDefault` is not called, so
default browser scrolling proceeds. -/
theorem vertical_move_no_horizontal_effect :
    (∀ (r : RowState) (sd : SwipeData) (e : MoveEvent),
      r.swipeData = some sd →
      |e.clientX - sd.startX| < |e.clientY - sd.startY| →
      Swipe.handleMove r e = (r, false)) ∧
    (∀ (r : RowState) (sd : SwipeData) (x y : Int),
      r.swipeData = some sd →
      |x - sd.startX| < |y - sd.startY| →
      SwipeTouchOnly.handleTouchMove r x y = (r, false)) := by
  constructor
  · intro r sd e h hv
    simp only [Swipe.handleMove, h]
    split_ifs with hg <;> rfl
  · intro r sd x y h hv
    simp only [SwipeTouchOnly.handleTouchMove, h]
    split_ifs <;> rfl

/-- Witness for C5: a move 5 px right and 60 px down (vertical) leaves the
row of either revision untouched and scrollable. -/
theorem vertical_move_no_horizontal_effect_witness :
    Swipe.handleMove (restRow (some ⟨200, 100, 200, 0, false⟩))
        ⟨205, 160, false, 0⟩ =
      (restRow (some ⟨200, 100, 200, 0, false⟩), false) ∧
    SwipeTouchOnly.handleTouchMove (restRow (some ⟨200, 100, 200, 0, false⟩))
        205 160 =
      (restRow (some ⟨200, 100, 200, 0, false⟩), false) :=
  ⟨vertical_move_no_horizontal_effect.1 _ ⟨200, 100, 200, 0, false⟩
      ⟨205, 160, false, 0⟩ rfl (by decide),
    vertical_move_no_horizontal_effect.2 _ ⟨200, 100, 200, 0, false⟩
      205 160 rfl (by decide)⟩

/-- C6: a horizontal leftward move on a row with active gesture state
applies a visual offset of exactly `min(|deltaX|, THRESHOLD)` pixels —
never more than THRESHOLD = 100 — and leaves the `swipe-delete` "armed"
marker present afterwards iff that offset exceeds `0.6 * THRESHOLD = 60`. -/
theorem leftward_move_offset_and_armed (r : RowState) (sd : SwipeData)
    (e : MoveEvent) (h : r.swipeData = some sd)
    (hg : ¬(sd.isMouseDown ∧ e.isMouseMove ∧ e.buttons ≠ 1))
    (hhor : |e.clientY - sd.startY| ≤ |e.clientX - sd.startX|)
    (hleft : e.clientX - sd.startX < 0) :
    (Swipe.handleMove r e).1.transform =
      Transform.translatePx (min |e.clientX - sd.startX| 100) ∧
    min |e.clientX - sd.startX| 100 ≤ 100 ∧
    ((Swipe.handleMove r e).1.swipeDelete = true ↔
      60 < min |e.clientX - sd.startX| 100) := by
  have hcap : min |e.clientX - sd.startX| (100 : Int) ≤ 100 :=
    min_le_right _ _
  have h610 : (100 : Int) * 6 / 10 = 60 := by norm_num
  simp only [Swipe.handleMove, h, Config.SWIPE_THRESHOLD, h610]
  split_ifs with hv ht
  · exact absurd hv (not_lt.mpr hhor)
  · exact ⟨rfl, hcap, iff_of_true rfl ht⟩
  · exact ⟨rfl, hcap, iff_of_false (by simp) ht⟩

/-- Witness for C6: a 70 px leftward, 2 px vertical move applies a 70 px
offset, capped below 100, and arms the delete state since 70 > 60. -/
theorem leftward_move_offset_and_armed_witness :
    (Swipe.handleMove (restRow (some ⟨200, 100, 200, 0, false⟩))
        ⟨130, 102, false, 0⟩).1.transform =
      Transform.translatePx (min |(130 : Int) - 200| 100) ∧
    min |(130 : Int) - 200| 100 ≤ 100 ∧
    ((Swipe.handleMove (restRow (some ⟨200, 100, 200, 0, false⟩))
        ⟨130, 102, false, 0⟩).1.swipeDelete = true ↔
      60 < min |(130 : Int) - 200| 100) :=
  leftward_move_offset_and_armed
    (restRow (some ⟨200, 100, 200, 0, false⟩)) ⟨200, 100, 200, 0, false⟩
    ⟨130, 102, false, 0⟩ rfl (by decide) (by decide) (by decide)

/-- C7: a pointer-down on a row that already holds an active gesture state
simply overwrites it with the fresh state (no stacking), and a pointer-up
on a row with an active state discards the state unconditionally, in the
delete outcome and in the reset outcome alike. -/
theorem gesture_state_overwrite_and_discard (r : RowState)
    (x y t now : Int) (isTouch : Bool) (sd : SwipeData)
    (h : r.swipeData = some sd) :
    (Swipe.handleStart r x y t isTouch).swipeData =
      some { startX := x, startY := y, currentX := x, startTime := t,
             isMouseDown := !isTouch } ∧
    ((Swipe.handleEnd r now).1.swipeData = none ∧
      ((Swipe.handleEnd r now).2 = EndOutcome.deleteDispatched ∨
        (Swipe.handleEnd r now).2 = EndOutcome.reset)) := by
  refine ⟨rfl, ?_⟩
  simp only [Swipe.handleEnd, h]
  split_ifs with hd
  · exact ⟨rfl, Or.inl rfl⟩
  · exact ⟨rfl, Or.inr rfl⟩

/-- Witness for C7: a row already holding a gesture state started at
(10, 20): a new pointer-down at (30, 40) overwrites it, and a pointer-up
discards it. -/
theorem gesture_state_overwrite_and_discard_witness :
    (Swipe.handleStart (restRow (some ⟨10, 20, 10, 0, false⟩))
        30 40 5 true).swipeData =
      some { startX := 30, startY := 40, currentX := 30, startTime := 5,
             isMouseDown := !true } ∧
    ((Swipe.handleEnd (restRow (some ⟨10, 20, 10, 0, false⟩)) 7).1.swipeData =
        none ∧
      ((Swipe.handleEnd (restRow (some ⟨10, 20, 10, 0, false⟩)) 7).2 =
          EndOutcome.deleteDispatched ∨
        (Swipe.handleEnd (restRow (some ⟨10, 20, 10, 0, false⟩)) 7).2 =
          EndOutcome.reset)) :=
  gesture_state_overwrite_and_discard (restRow (some ⟨10, 20, 10, 0, false⟩))
    30 40 5 7 true ⟨10, 20, 10, 0, false⟩ rfl

/-- C8: a second pointer-up without an intervening pointer-down is a no-op:
the first `handleEnd` always leaves the row without gesture state, so the
second call returns the row unchanged with the no-op outcome (no
classification, no visual change, no dispatch). -/
theorem handleEnd_twice_second_noop (r : RowState) (now now2 : Int) :
    Swipe.handleEnd (Swipe.handleEnd r now).1 now2 =
      ((Swipe.handleEnd r now).1, EndOutcome.noOp) := by
  have h : (Swipe.handleEnd r now).1.swipeData = none := by
    cases hr : r.swipeData with
    | none => simp [Swipe.handleEnd, hr]
    | some sd =>
      simp only [Swipe.handleEnd, hr]
      split_ifs with hd <;> rfl
  generalize hg : (Swipe.handleEnd r now).1 = r1 at h ⊢
  simp [Swipe.handleEnd, h]

/-- C9: the 0.6-of-THRESHOLD classifier of src/unnamed/part_000 and the
flat-50px classifier of src/unnamed/part_001 are not equivalent: the
gesture with final deltaX = -55, distance 55, elapsed 500 ms is reset by
the former and classified as a delete by the latter. -/
theorem threshold_schemes_inconsistent :
    (Swipe.handleEnd (restRow (some ⟨200, 100, 145, 0, false⟩)) 500).2 =
      EndOutcome.reset ∧
    (SwipeTouchOnly.handleTouchEnd (restRow (some ⟨200, 100, 145, 0, false⟩))
        500).2 = EndOutcome.deleteDispatched ∧
    (Swipe.handleEnd (restRow (some ⟨200, 100, 145, 0, false⟩)) 500).2 ≠
      (SwipeTouchOnly.handleTouchEnd (restRow (some ⟨200, 100, 145, 0, false⟩))
        500).2 := by
  decide

/-- Unfolding step of `Swipe.processMoves` over a cons cell. -/
theorem processMoves_cons (r : RowState) (e : MoveEvent)
    (ms : List MoveEvent) :
    Swipe.processMoves r (e :: ms) =
      Swipe.processMoves (Swipe.handleMove r e).1 ms := rfl

/-- C10: a vertical move (`|deltaY| > |deltaX|`) leaves the whole row state
— in particular the stored `currentX` — unchanged; consequently, over any
sequence of moves, the gesture state at pointer-up carries as `currentX`
the X of the last move that passed the handler's guards (the last
horizontally-classified move), not the pointer's actual final position, so
the final deltaX is that X minus the start X. -/
theorem vertical_move_keeps_state_lastX :
    (∀ (r : RowState) (sd : SwipeData) (e : MoveEvent),
      r.swipeData = some sd →
      |e.clientX - sd.startX| < |e.clientY - sd.startY| →
      (Swipe.handleMove r e).1 = r) ∧
    (∀ (ms : List MoveEvent) (sd : SwipeData) (r : RowState),
      r.swipeData = some sd →
      (Swipe.processMoves r ms).swipeData =
        some { sd with currentX :=
          ((ms.filter (Swipe.isHorizontalMove sd)).map
            MoveEvent.clientX).getLastD sd.currentX }) := by
  constructor
  · intro r sd e h hv
    simp only [Swipe.handleMove, h]
    split_ifs with hg <;> rfl
  · intro ms
    induction ms with
    | nil =>
      intro sd r h
      simpa [Swipe.processMoves] using h
    | cons e ms ih =>
      intro sd r h
      by_cases hh : Swipe.isHorizontalMove sd e = true
      · have hstep := handleMove_horizontal_swipeData r sd e h hh
        rw [processMoves_cons, ih _ _ hstep,
          List.filter_cons_of_pos hh, List.map_cons, List.getLastD_cons]
        rfl
      · rw [Bool.not_eq_true] at hh
        have h1 : (Swipe.handleMove r e).1 = r := by
          rw [handleMove_not_horizontal r sd e h hh]
        rw [processMoves_cons, h1, ih sd r h,
          List.filter_cons_of_neg (by simp [hh])]

/-- Witness for C10: a vertical move leaves a tracked row unchanged; and in
a gesture started at (200, 100), a horizontal move to x = 150 followed by a
vertical move to (140, 400) ends with `currentX` = 150 — the X of the last
horizontally-classified move, not the pointer's final 140. -/
theorem vertical_move_keeps_state_lastX_witness :
    (Swipe.handleMove (restRow (some ⟨0, 0, 0, 0, false⟩))
        ⟨3, 9, false, 0⟩).1 = restRow (some ⟨0, 0, 0, 0, false⟩) ∧
    (Swipe.processMoves (restRow (some ⟨200, 100, 200, 0, false⟩))
        [⟨150, 101, false, 0⟩, ⟨140, 400, false, 0⟩]).swipeData =
      some ⟨200, 100, 150, 0, false⟩ := by
  constructor
  · exact vertical_move_keeps_state_lastX.1 _ ⟨0, 0, 0, 0, false⟩
      ⟨3, 9, false, 0⟩ rfl (by decide)
  · have h := vertical_move_keeps_state_lastX.2
      [⟨150, 101, false, 0⟩, ⟨140, 400, false, 0⟩]
      ⟨200, 100, 200, 0, false⟩ (restRow (some ⟨200, 100, 200, 0, false⟩)) rfl
    rw [h]
    decide
